import Mathlib

/-!
Shallow embedding of `proxy/connection.go` from blackhu/go-mitmproxy.

Go pointers that may be `nil` become `Option`; Go `error` values become
`Option String` (a `net.Conn.Close` / dial / handshake error message, `none`
meaning the nil error); `net.Conn` handles and `tls.Conn` handles become `Nat`
identifiers; the addon broadcast loop (`for _, addon := range proxy.Addons`)
is recorded as a single trace event standing for the whole in-order broadcast.
External collaborators (the TCP dialer, the upstream TLS handshake, the
certificate authority `ca.GetCert`) are passed in as oracle functions, and each
modelled operation returns the trace of observable events it emits.
-/

/-- Go `error` values, modelled as their message.  `Option GoErr` stands for a
Go `error` variable that may be `nil`. -/
abbrev GoErr := String

/-- Snapshot of `tls.ConnectionState` as far as this core observes it:\x20
the negotiated protocol version and cipher suite. -/
structure TlsConnState where
  version : Nat
  cipherSuite : Nat
deriving DecidableEq, Repr

/-- A `tls.Certificate` issued by the certificate authority; only its identity
matters to this core, carried here as the name it was requested for plus an
opaque serial. -/
structure Certificate where
  forName : String
  serial : Nat
deriving DecidableEq, Repr

/-- Observable lifecycle events emitted by the connection core.  Each addon
broadcast loop is one event; `handshakeFired` is the `close(tlsHandshaked)`
one-shot; `caInvoked` is the call to `ca.GetCert`; the two `UnderlyingClosed`
events are the real `Conn.Close()` calls inside the wrappers. -/
inductive Event where
  | serverConnected
  | clientDisconnected
  | serverDisconnected
  | handshakeFired
  | caInvoked (serverName : String)
  | clientUnderlyingClosed
  | serverUnderlyingClosed
deriving DecidableEq, Repr

/-- `tls.ClientHelloInfo` as read by `getCertificate`: the requested server
name (SNI), the offered cipher suites and the offered supported versions. -/
structure ClientHelloInfo where
  serverName : String
  cipherSuites : List Nat
  supportedVersions : List Nat
deriving DecidableEq, Repr

/-- The `tls.Config` literal built inside `getCertificate` (the fields the
source sets; `minVersion`/`maxVersion` keep Go's zero value `0` unless the
source assigns them). -/
structure TlsConfig where
  insecureSkipVerify : Bool
  serverName : String
  nextProtos : List String
  cipherSuites : List Nat
  minVersion : Nat
  maxVersion : Nat
deriving DecidableEq, Repr

/-- The configuration of an `http.Client` built by the context initializers,
reduced to the flags the source sets explicitly. -/
structure DispatchClient where
  forceAttemptHTTP2 : Bool
  disableCompression : Bool
  redirectsDisabled : Bool
  usesTlsDial : Bool
deriving DecidableEq, Repr

/-- The `http.Client` literal of `initHttpServerConn`: HTTP/2 off, compression
off, redirects surfaced (`http.ErrUseLastResponse`), plain-TCP dial. -/
def plainDispatchClient : DispatchClient :=
  { forceAttemptHTTP2 := false
    disableCompression := true
    redirectsDisabled := true
    usesTlsDial := false }

/-- The `http.Client` literal of `initHttpsServerConn`: HTTP/2 off, compression
off, redirects surfaced, and a TLS dial that blocks on `tlsHandshaked`. -/
def tlsDispatchClient : DispatchClient :=
  { forceAttemptHTTP2 := false
    disableCompression := true
    redirectsDisabled := true
    usesTlsDial := true }

/-- `ServerConn`: id, resolved upstream address, the wrapped TCP connection
(`none` until a dial succeeds), the one-shot `tlsHandshaked` channel modelled
as a fired flag, the cached handshake error, the cached `*tls.Conn` handle,
the cached connection-state snapshot, and the lazily installed client. -/
structure ServerConn where
  id : Nat
  address : String
  conn : Option Nat
  tlsHandshakedFired : Bool
  tlsHandshakeErr : Option GoErr
  tlsConn : Option Nat
  tlsState : Option TlsConnState
  client : Option DispatchClient
deriving DecidableEq, Repr

/-- `newServerConn()`: fresh id, open (unfired) `tlsHandshaked` channel, every
other field at its zero value. -/
def newServerConn (freshId : Nat) : ServerConn :=
  { id := freshId
    address := ""
    conn := none
    tlsHandshakedFired := false
    tlsHandshakeErr := none
    tlsConn := none
    tlsState := none
    client := none }

/-- `ServerConn.TlsState()`: `<-c.tlsHandshaked; return c.tlsState`.  The
receive on the one-shot channel is modelled by the outer `Option`: `none`
means the caller is still blocked (channel not yet closed); once fired every
call returns `some` of the cached snapshot.  The accessor performs no
handshake, so its event trace is always empty. -/
def ServerConn.TlsState (c : ServerConn) : Option (Option TlsConnState) × List Event :=
  (if c.tlsHandshakedFired then some c.tlsState else none, [])

/-- `ClientConn`: id, the accepted connection (an opaque handle here) and the
`Tls` flag set once interception begins. -/
structure ClientConn where
  id : Nat
  tls : Bool
deriving DecidableEq, Repr

/-- `ConnContext`: the client connection, the optional server connection, the
tunnel descriptor host (`pipeConn.host`) and the proxy-wide
`Opts.SslInsecure` flag reached through `connCtx.proxy`. -/
structure ConnContext where
  clientConn : ClientConn
  serverConn : Option ServerConn
  pipeConnHost : String
  sslInsecure : Bool
deriving DecidableEq, Repr

/-- `initHttpServerConn`: no-op when a ServerConn already exists or the client
speaks TLS; otherwise installs a fresh ServerConn whose `client` is the
plain-dial `http.Client` literal.  (The `ServerConnected` broadcast happens
lazily inside that client's `DialContext`, not here.) -/
def initHttpServerConn (ctx : ConnContext) (freshId : Nat) : ConnContext :=
  match ctx.serverConn with
  | some _ => ctx
  | none =>
    if ctx.clientConn.tls then ctx
    else
      let sconn := { newServerConn freshId with client := some plainDispatchClient }
      { ctx with serverConn := some sconn }

/-- `initServerTcpConn`: creates a fresh ServerConn, assigns it to the context
and copies `pipeConn.host` into its address *before* dialing; on dial failure
returns the error (the context keeps the connection-less ServerConn); on
success wraps the dialed conn, stores it, and broadcasts `ServerConnected`. -/
def initServerTcpConn (ctx : ConnContext) (freshId : Nat)
    (dial : String → Except GoErr Nat) :
    ConnContext × List Event × Option GoErr :=
  let sconn := { newServerConn freshId with address := ctx.pipeConnHost }
  match dial sconn.address with
  | .error e => ({ ctx with serverConn := some sconn }, [], some e)
  | .ok h =>
      let sconn2 := { sconn with conn := some h }
      ({ ctx with serverConn := some sconn2 }, [Event.serverConnected], none)

/-- `initHttpsServerConn`: returns immediately when the client is not speaking
TLS; otherwise assigns the TLS-dial `http.Client` through
`connCtx.ServerConn.client` — an unguarded pointer dereference, so a `nil`
ServerConn faults (modelled as `none`). -/
def initHttpsServerConn (ctx : ConnContext) : Option ConnContext :=
  if !ctx.clientConn.tls then some ctx
  else
    match ctx.serverConn with
    | none => none
    | some sc =>
        let sc2 := { sc with client := some tlsDispatchClient }
        some { ctx with serverConn := some sc2 }

/-- Body of the `for _, version := range clientHello.SupportedVersions` loop:
carry the running minimum and the running maximum, comparing every element
against both. -/
def versionScanStep (p : Nat × Nat) (version : Nat) : Nat × Nat :=
  (if version < p.1 then version else p.1,
   if version > p.2 then version else p.2)

/-- The `tls.Config` built at the top of `getCertificate`: verification policy
from `Opts.SslInsecure`, server name and cipher suites copied from the client
hello, next protocols pinned to HTTP/1.1, and — only when the offered
supported-version list is non-empty — `MinVersion`/`MaxVersion` set by the
single scan of the whole list that tracks both the running minimum and the
running maximum. -/
def buildUpstreamTlsConfig (sslInsecure : Bool) (hello : ClientHelloInfo) : TlsConfig :=
  let cfg : TlsConfig :=
    { insecureSkipVerify := sslInsecure
      serverName := hello.serverName
      nextProtos := ["http/1.1"]
      cipherSuites := hello.cipherSuites
      minVersion := 0
      maxVersion := 0 }
  match hello.supportedVersions with
  | [] => cfg
  | v0 :: _ =>
      let scan := hello.supportedVersions.foldl versionScanStep (v0, v0)
      { cfg with minVersion := scan.1, maxVersion := scan.2 }

/-- Outcome of a successful `tlsConn.HandshakeContext`: the negotiated
`*tls.Conn` handle and the `tlsConn.ConnectionState()` snapshot. -/
structure TlsHandshakeOk where
  handle : Nat
  state : TlsConnState
deriving DecidableEq, Repr

/-- `getCertificate`, given the ServerConn the context holds (the source reads
it through `connCtx.ServerConn`), the client hello, the upstream-handshake
oracle (`tls.Client` + `HandshakeContext` against `ServerConn.Conn`) and the
certificate authority oracle (`ca.GetCert`).  Failure path: cache the error,
close `tlsHandshaked`, return the error.  Success path: cache the handle and
the state snapshot, close `tlsHandshaked`, then ask the CA for a leaf
certificate for the requested server name and return its answer. -/
def getCertificate (sslInsecure : Bool) (sc : ServerConn) (hello : ClientHelloInfo)
    (handshake : TlsConfig → Except GoErr TlsHandshakeOk)
    (caGetCert : String → Except GoErr Certificate) :
    ServerConn × List Event × Except GoErr Certificate :=
  let cfg := buildUpstreamTlsConfig sslInsecure hello
  match handshake cfg with
  | .error e =>
      ({ sc with tlsHandshakeErr := some e, tlsHandshakedFired := true },
       [Event.handshakeFired], .error e)
  | .ok hs =>
      ({ sc with tlsConn := some hs.handle, tlsState := some hs.state,
                 tlsHandshakedFired := true },
       [Event.handshakeFired, Event.caInvoked hello.serverName],
       caGetCert hello.serverName)

/-! ### Connection wrappers and the cascading Close -/

/-- One wrapper's mutable close bookkeeping: the `closed` idempotency flag and
the cached `closeErr`. -/
structure WrapConnSt where
  closed : Bool
  closeErr : Option GoErr
deriving DecidableEq, Repr

/-- Environment of a close cascade: the error each underlying `Conn.Close()`
would return. -/
structure CloseEnv where
  clientUnderlyingErr : Option GoErr
  serverUnderlyingErr : Option GoErr
deriving DecidableEq, Repr

/-- Joint state of the paired `wrapClientConn` and `wrapServerConn` reachable
through one `ConnContext`.  `serverPresent` models the guard
`connCtx.ServerConn != nil && connCtx.ServerConn.Conn != nil` checked by the
client wrapper's cascade. -/
structure PairState where
  client : WrapConnSt
  server : WrapConnSt
  serverPresent : Bool
deriving DecidableEq, Repr

/-- Fresh pair: neither wrapper closed, no cached errors. -/
def freshPair (serverPresent : Bool) : PairState :=
  { client := { closed := false, closeErr := none }
    server := { closed := false, closeErr := none }
    serverPresent := serverPresent }

mutual

/-- `wrapClientConn.Close` (fueled for the mutual cascade; the flags make the
real recursion depth at most 3).  Already closed: return the cached error.
Otherwise: set the flag, perform the real close caching its error, broadcast
`ClientDisconnected`, and cascade to the server wrapper only when
`connCtx.ServerConn != nil && connCtx.ServerConn.Conn != nil`. -/
def wrapClientCloseF (env : CloseEnv) : Nat → PairState → PairState × List Event × Option GoErr
  | 0, st => (st, [], none)
  | Nat.succ n, st =>
    if st.client.closed then (st, [], st.client.closeErr)
    else
      let st1 := { st with client := { closed := true, closeErr := env.clientUnderlyingErr } }
      let ev1 := [Event.clientUnderlyingClosed, Event.clientDisconnected]
      if st1.serverPresent then
        let rec1 := wrapServerCloseF env n st1
        (rec1.1, ev1 ++ rec1.2.1, env.clientUnderlyingErr)
      else
        (st1, ev1, env.clientUnderlyingErr)

/-- `wrapServerConn.Close` (fueled).  Already closed: return the cached error.
Otherwise: set the flag, perform the real close caching its error, broadcast
`ServerDisconnected`, and cascade to the client wrapper unconditionally
(the source closes `connCtx.ClientConn.Conn` with no nil guard). -/
def wrapServerCloseF (env : CloseEnv) : Nat → PairState → PairState × List Event × Option GoErr
  | 0, st => (st, [], none)
  | Nat.succ n, st =>
    if st.server.closed then (st, [], st.server.closeErr)
    else
      let st1 := { st with server := { closed := true, closeErr := env.serverUnderlyingErr } }
      let ev1 := [Event.serverUnderlyingClosed, Event.serverDisconnected]
      let rec1 := wrapClientCloseF env n st1
      (rec1.1, ev1 ++ rec1.2.1, env.serverUnderlyingErr)

end

/-- `wrapClientConn.Close` with enough fuel for the deepest cascade
(client → server → client-already-closed). -/
def wrapClientClose (env : CloseEnv) (st : PairState) : PairState × List Event × Option GoErr :=
  wrapClientCloseF env 3 st

/-- `wrapServerConn.Close` with enough fuel for the deepest cascade. -/
def wrapServerClose (env : CloseEnv) (st : PairState) : PairState × List Event × Option GoErr :=
  wrapServerCloseF env 3 st

/-! ### Interleaving model of two concurrent `Close` calls on one wrapper

The source guards `Close` with `if c.closed { return c.closeErr }` followed by
`c.closed = true` — a plain boolean with no mutex, so the check and the update
of two concurrent callers can interleave.  Each thread is reduced to two
atomic actions: the flag check, and the combined
set-flag / real-close / notify body. -/

/-- Program counter of one `Close` invocation: `0` before the `closed` check,
`1` after passing the check (about to set the flag, close and notify), `2`
returned. -/
structure RaceState where
  closed : Bool
  realCloses : Nat
  notifies : Nat
  pc1 : Nat
  pc2 : Nat
deriving DecidableEq, Repr

/-- Both `Close` invocations poised at the flag check of a fresh wrapper. -/
def raceInit : RaceState :=
  { closed := false, realCloses := 0, notifies := 0, pc1 := 0, pc2 := 0 }

/-- Advance thread `t` (`false` = first caller, `true` = second caller) by one
atomic action of the unsynchronized `Close` body. -/
def raceStep (st : RaceState) (t : Bool) : RaceState :=
  let pc := if t then st.pc2 else st.pc1
  if pc = 0 then
    let pcNew := if st.closed then 2 else 1
    if t then { st with pc2 := pcNew } else { st with pc1 := pcNew }
  else if pc = 1 then
    let st1 := { st with closed := true, realCloses := st.realCloses + 1,
                         notifies := st.notifies + 1 }
    if t then { st1 with pc2 := 2 } else { st1 with pc1 := 2 }
  else st

/-- Run a schedule (list of thread choices) from the fresh double-Close
state. -/
def raceRun (sched : List Bool) : RaceState :=
  sched.foldl raceStep raceInit

/-! ### Properties of the version scan -/

/-- Running minimum of one loop iteration, first component of
`versionScanStep`. -/
def runMin (m v : Nat) : Nat := if v < m then v else m

/-- Running maximum of one loop iteration, second component of
`versionScanStep`. -/
def runMax (m v : Nat) : Nat := if v > m then v else m

lemma runMin_le_left (m v : Nat) : runMin m v ≤ m := by
  unfold runMin; split <;> omega

lemma runMin_le_arg (m v : Nat) : runMin m v ≤ v := by
  unfold runMin; split <;> omega

lemma left_le_runMax (m v : Nat) : m ≤ runMax m v := by
  unfold runMax; split <;> omega

lemma arg_le_runMax (m v : Nat) : v ≤ runMax m v := by
  unfold runMax; split <;> omega

lemma versionScan_fst (l : List Nat) (a b : Nat) :
    (l.foldl versionScanStep (a, b)).1 = l.foldl runMin a := by
  induction l generalizing a b with
  | nil => rfl
  | cons x xs ih =>
      simp only [List.foldl_cons]
      exact ih _ _

lemma versionScan_snd (l : List Nat) (a b : Nat) :
    (l.foldl versionScanStep (a, b)).2 = l.foldl runMax b := by
  induction l generalizing a b with
  | nil => rfl
  | cons x xs ih =>
      simp only [List.foldl_cons]
      exact ih _ _

lemma foldl_runMin_le_init (l : List Nat) (a : Nat) : l.foldl runMin a ≤ a := by
  induction l generalizing a with
  | nil => exact le_refl a
  | cons x xs ih =>
      simp only [List.foldl_cons]
      exact le_trans (ih (runMin a x)) (runMin_le_left a x)

lemma foldl_runMin_le_mem (l : List Nat) (a : Nat) :
    ∀ v ∈ l, l.foldl runMin a ≤ v := by
  induction l generalizing a with
  | nil => intro v hv; cases hv
  | cons x xs ih =>
      intro v hv
      simp only [List.foldl_cons]
      rcases List.mem_cons.mp hv with hvx | hvxs
      · subst hvx
        exact le_trans (foldl_runMin_le_init xs (runMin a v)) (runMin_le_arg a v)
      · exact ih (runMin a x) v hvxs

lemma foldl_runMin_mem_or (l : List Nat) (a : Nat) :
    l.foldl runMin a = a ∨ l.foldl runMin a ∈ l := by
  induction l generalizing a with
  | nil => exact Or.inl rfl
  | cons x xs ih =>
      simp only [List.foldl_cons]
      rcases ih (runMin a x) with h | h
      · rw [h]
        unfold runMin
        split
        · exact Or.inr (List.mem_cons_self x xs)
        · exact Or.inl rfl
      · exact Or.inr (List.mem_cons_of_mem x h)

lemma init_le_foldl_runMax (l : List Nat) (b : Nat) : b ≤ l.foldl runMax b := by
  induction l generalizing b with
  | nil => exact le_refl b
  | cons x xs ih =>
      simp only [List.foldl_cons]
      exact le_trans (left_le_runMax b x) (ih (runMax b x))

lemma mem_le_foldl_runMax (l : List Nat) (b : Nat) :
    ∀ v ∈ l, v ≤ l.foldl runMax b := by
  induction l generalizing b with
  | nil => intro v hv; cases hv
  | cons x xs ih =>
      intro v hv
      simp only [List.foldl_cons]
      rcases List.mem_cons.mp hv with hvx | hvxs
      · subst hvx
        exact le_trans (arg_le_runMax b v) (init_le_foldl_runMax xs (runMax b v))
      · exact ih (runMax b x) v hvxs

lemma foldl_runMax_mem_or (l : List Nat) (b : Nat) :
    l.foldl runMax b = b ∨ l.foldl runMax b ∈ l := by
  induction l generalizing b with
  | nil => exact Or.inl rfl
  | cons x xs ih =>
      simp only [List.foldl_cons]
      rcases ih (runMax b x) with h | h
      · rw [h]
        unfold runMax
        split
        · exact Or.inr (List.mem_cons_self x xs)
        · exact Or.inl rfl
      · exact Or.inr (List.mem_cons_of_mem x h)

lemma buildUpstream_serverName (ins : Bool) (hello : ClientHelloInfo) :
    (buildUpstreamTlsConfig ins hello).serverName = hello.serverName := by
  simp only [buildUpstreamTlsConfig]
  cases hello.supportedVersions <;> rfl

lemma buildUpstream_cipherSuites (ins : Bool) (hello : ClientHelloInfo) :
    (buildUpstreamTlsConfig ins hello).cipherSuites = hello.cipherSuites := by
  simp only [buildUpstreamTlsConfig]
  cases hello.supportedVersions <;> rfl

lemma buildUpstream_minVersion (ins : Bool) (hello : ClientHelloInfo)
    (v0 : Nat) (rest : List Nat) (hl : hello.supportedVersions = v0 :: rest) :
    (buildUpstreamTlsConfig ins hello).minVersion = (v0 :: rest).foldl runMin v0 := by
  simp only [buildUpstreamTlsConfig, hl]
  rw [versionScan_fst]

lemma buildUpstream_maxVersion (ins : Bool) (hello : ClientHelloInfo)
    (v0 : Nat) (rest : List Nat) (hl : hello.supportedVersions = v0 :: rest) :
    (buildUpstreamTlsConfig ins hello).maxVersion = (v0 :: rest).foldl runMax v0 := by
  simp only [buildUpstreamTlsConfig, hl]
  rw [versionScan_snd]

/-! ### Theorems for the claims -/

/-- C1: for every client hello with a non-empty supported-versions list,
`getCertificate` builds its upstream `tls.Config` as `buildUpstreamTlsConfig`
(the outcome of `getCertificate` depends on the handshake oracle only through
that config), and that config carries the client's server name and cipher
suites verbatim while `MinVersion`/`MaxVersion` are the minimum and maximum
of the offered list, computed by the full scan with no sortedness
assumption. -/
theorem upstream_tls_config_mirrors_client_hello (ins : Bool) (hello : ClientHelloInfo)
    (h : hello.supportedVersions ≠ []) :
    (buildUpstreamTlsConfig ins hello).serverName = hello.serverName ∧
    (buildUpstreamTlsConfig ins hello).cipherSuites = hello.cipherSuites ∧
    (buildUpstreamTlsConfig ins hello).minVersion ∈ hello.supportedVersions ∧
    (buildUpstreamTlsConfig ins hello).maxVersion ∈ hello.supportedVersions ∧
    (∀ v ∈ hello.supportedVersions,
      (buildUpstreamTlsConfig ins hello).minVersion ≤ v ∧
      v ≤ (buildUpstreamTlsConfig ins hello).maxVersion) ∧
    (∀ (sc : ServerConn) (hs1 hs2 : TlsConfig → Except GoErr TlsHandshakeOk)
        (ca : String → Except GoErr Certificate),
      hs1 (buildUpstreamTlsConfig ins hello) = hs2 (buildUpstreamTlsConfig ins hello) →
      getCertificate ins sc hello hs1 ca = getCertificate ins sc hello hs2 ca) := by
  cases hl : hello.supportedVersions with
  | nil => exact absurd hl h
  | cons v0 rest =>
      have hmin := buildUpstream_minVersion ins hello v0 rest hl
      have hmax := buildUpstream_maxVersion ins hello v0 rest hl
      refine ⟨buildUpstream_serverName ins hello, buildUpstream_cipherSuites ins hello,
              ?_, ?_, ?_, ?_⟩
      · rw [hmin]
        rcases foldl_runMin_mem_or (v0 :: rest) v0 with hm | hm
        · rw [hm]; exact List.mem_cons_self v0 rest
        · exact hm
      · rw [hmax]
        rcases foldl_runMax_mem_or (v0 :: rest) v0 with hm | hm
        · rw [hm]; exact List.mem_cons_self v0 rest
        · exact hm
      · intro v hv
        exact ⟨by rw [hmin]; exact foldl_runMin_le_mem (v0 :: rest) v0 v hv,
               by rw [hmax]; exact mem_le_foldl_runMax (v0 :: rest) v0 v hv⟩
      · intro sc hs1 hs2 ca heq
        simp only [getCertificate]
        rw [heq]

/-- Sample client hello with a deliberately unsorted supported-versions
list. -/
def helloSample : ClientHelloInfo :=
  { serverName := "a.example", cipherSuites := [10, 20], supportedVersions := [771, 769, 772] }

/-- Witness for C1 at a concrete unsorted hello: min `769`, max `772`,
name and cipher suites forwarded. -/
theorem upstream_tls_config_mirrors_client_hello_witness :
    (buildUpstreamTlsConfig true helloSample).serverName = "a.example" ∧
    (buildUpstreamTlsConfig true helloSample).cipherSuites = [10, 20] ∧
    (buildUpstreamTlsConfig true helloSample).minVersion = 769 ∧
    (buildUpstreamTlsConfig true helloSample).maxVersion = 772 := by
  have h := upstream_tls_config_mirrors_client_hello true helloSample (by decide)
  exact ⟨h.1, h.2.1, by decide, by decide⟩

/-- C2: whenever the upstream handshake performed inside `getCertificate`
fails, the error is cached on the ServerConn, `tlsHandshaked` is closed
exactly once (the whole trace is the single fire event), the call returns the
error with no certificate, the cached TLS state is untouched, and the
certificate authority oracle is never consulted (the outcome is the same for
any CA oracle). -/
theorem getCertificate_handshake_failure (ins : Bool) (sc : ServerConn)
    (hello : ClientHelloInfo) (hs : TlsConfig → Except GoErr TlsHandshakeOk)
    (ca ca2 : String → Except GoErr Certificate) (e : GoErr)
    (hfail : hs (buildUpstreamTlsConfig ins hello) = .error e) :
    (getCertificate ins sc hello hs ca).1.tlsHandshakeErr = some e ∧
    (getCertificate ins sc hello hs ca).1.tlsHandshakedFired = true ∧
    (getCertificate ins sc hello hs ca).1.tlsState = sc.tlsState ∧
    (getCertificate ins sc hello hs ca).2.1 = [Event.handshakeFired] ∧
    (getCertificate ins sc hello hs ca).2.2 = Except.error e ∧
    getCertificate ins sc hello hs ca = getCertificate ins sc hello hs ca2 := by
  simp [getCertificate, hfail]

/-- Sample fresh ServerConn. -/
def scSample : ServerConn := newServerConn 7

/-- Witness for C2 at a concrete failing handshake. -/
theorem getCertificate_handshake_failure_witness :
    (getCertificate false scSample helloSample (fun _ => Except.error "refused")
        (fun _ => Except.error "no ca")).2.2 = Except.error "refused" ∧
    (getCertificate false scSample helloSample (fun _ => Except.error "refused")
        (fun _ => Except.error "no ca")).1.tlsHandshakeErr = some "refused" ∧
    (getCertificate false scSample helloSample (fun _ => Except.error "refused")
        (fun _ => Except.error "no ca")).2.1 = [Event.handshakeFired] := by
  have h := getCertificate_handshake_failure false scSample helloSample
      (fun _ => Except.error "refused") (fun _ => Except.error "no ca")
      (fun _ => Except.error "no ca") "refused" rfl
  exact ⟨h.2.2.2.2.1, h.1, h.2.2.2.1⟩

/-- C3: whenever the upstream handshake performed inside `getCertificate`
succeeds, the negotiated `tls.Conn` handle and the connection-state snapshot
are cached on the ServerConn, `tlsHandshaked` is closed exactly once and only
then is the certificate authority consulted, exactly once, with the client's
requested server name (the trace is precisely the fire event followed by the
CA call); the CA's answer is what the call returns. -/
theorem getCertificate_handshake_success (ins : Bool) (sc : ServerConn)
    (hello : ClientHelloInfo) (hs : TlsConfig → Except GoErr TlsHandshakeOk)
    (ca : String → Except GoErr Certificate) (ok : TlsHandshakeOk)
    (hok : hs (buildUpstreamTlsConfig ins hello) = .ok ok) :
    (getCertificate ins sc hello hs ca).1.tlsConn = some ok.handle ∧
    (getCertificate ins sc hello hs ca).1.tlsState = some ok.state ∧
    (getCertificate ins sc hello hs ca).1.tlsHandshakedFired = true ∧
    (getCertificate ins sc hello hs ca).1.tlsHandshakeErr = sc.tlsHandshakeErr ∧
    (getCertificate ins sc hello hs ca).2.1 =
      [Event.handshakeFired, Event.caInvoked hello.serverName] ∧
    (getCertificate ins sc hello hs ca).2.2 = ca hello.serverName := by
  simp [getCertificate, hok]

/-- Witness for C3 at a concrete successful handshake: the returned
certificate is exactly the CA's answer for `"a.example"`, issued after the
fire event. -/
theorem getCertificate_handshake_success_witness :
    (getCertificate false scSample helloSample
        (fun _ => Except.ok { handle := 3, state := { version := 772, cipherSuite := 10 } })
        (fun n => Except.ok { forName := n, serial := 1 })).2.2 =
      Except.ok { forName := "a.example", serial := 1 } ∧
    (getCertificate false scSample helloSample
        (fun _ => Except.ok { handle := 3, state := { version := 772, cipherSuite := 10 } })
        (fun n => Except.ok { forName := n, serial := 1 })).2.1 =
      [Event.handshakeFired, Event.caInvoked "a.example"] ∧
    (getCertificate false scSample helloSample
        (fun _ => Except.ok { handle := 3, state := { version := 772, cipherSuite := 10 } })
        (fun n => Except.ok { forName := n, serial := 1 })).1.tlsState =
      some { version := 772, cipherSuite := 10 } := by
  have h := getCertificate_handshake_success false scSample helloSample
      (fun _ => Except.ok { handle := 3, state := { version := 772, cipherSuite := 10 } })
      (fun n => Except.ok { forName := n, serial := 1 })
      { handle := 3, state := { version := 772, cipherSuite := 10 } } rfl
  exact ⟨h.2.2.2.2.2, h.2.2.2.2.1, h.2.1⟩

/-- C10: for a client hello whose supported-versions list is empty,
`getCertificate` leaves `MinVersion` and `MaxVersion` of the upstream config
at Go's zero value `0` (the TLS library defaults); the rest of the mirroring
still applies. -/
theorem empty_supported_versions_default_range (ins : Bool) (hello : ClientHelloInfo)
    (h : hello.supportedVersions = []) :
    (buildUpstreamTlsConfig ins hello).minVersion = 0 ∧
    (buildUpstreamTlsConfig ins hello).maxVersion = 0 ∧
    (buildUpstreamTlsConfig ins hello).serverName = hello.serverName ∧
    (buildUpstreamTlsConfig ins hello).cipherSuites = hello.cipherSuites := by
  simp [buildUpstreamTlsConfig, h]

/-- Sample client hello with an empty supported-versions list. -/
def helloNoVersions : ClientHelloInfo :=
  { serverName := "b.example", cipherSuites := [5], supportedVersions := [] }

/-- Witness for C10 at a concrete hello with no offered versions. -/
theorem empty_supported_versions_default_range_witness :
    (buildUpstreamTlsConfig false helloNoVersions).minVersion = 0 ∧
    (buildUpstreamTlsConfig false helloNoVersions).maxVersion = 0 ∧
    (buildUpstreamTlsConfig false helloNoVersions).serverName = "b.example" := by
  have h := empty_supported_versions_default_range false helloNoVersions rfl
  exact ⟨h.1, h.2.1, h.2.2.1⟩

/-- C4: for both wrappers, the first `Close` on a fresh pair performs the
underlying close exactly once, broadcasts the matching disconnect event
exactly once, returns (and caches) the underlying close error, and cascades
to the paired side — the client wrapper only when the ServerConn and its
connection exist, the server wrapper to the always-present client side; the
second `Close` on the same wrapper emits no event at all and returns the same
cached error with the state unchanged.  Stated as the exact traces. -/
theorem wrapper_close_first_real_then_cached (env : CloseEnv) (p : Bool) :
    (wrapClientClose env (freshPair p)).2.1 =
      (if p then [Event.clientUnderlyingClosed, Event.clientDisconnected,
                  Event.serverUnderlyingClosed, Event.serverDisconnected]
            else [Event.clientUnderlyingClosed, Event.clientDisconnected]) ∧
    (wrapClientClose env (freshPair p)).2.2 = env.clientUnderlyingErr ∧
    wrapClientClose env (wrapClientClose env (freshPair p)).1 =
      ((wrapClientClose env (freshPair p)).1, [], env.clientUnderlyingErr) ∧
    (wrapServerClose env (freshPair p)).2.1 =
      [Event.serverUnderlyingClosed, Event.serverDisconnected,
       Event.clientUnderlyingClosed, Event.clientDisconnected] ∧
    (wrapServerClose env (freshPair p)).2.2 = env.serverUnderlyingErr ∧
    wrapServerClose env (wrapServerClose env (freshPair p)).1 =
      ((wrapServerClose env (freshPair p)).1, [], env.serverUnderlyingErr) := by
  cases p <;> exact ⟨rfl, rfl, rfl, rfl, rfl, rfl⟩

/-- Sample plain-HTTP context: no ServerConn yet, client not speaking TLS. -/
def ctxSample : ConnContext :=
  { clientConn := { id := 1, tls := false }
    serverConn := none
    pipeConnHost := "b.example:9000"
    sslInsecure := false }

/-- C5: `initServerTcpConn` always installs a fresh ServerConn whose address
is the tunnel descriptor host; when the TCP dial fails it returns the dial
error, broadcasts nothing, and the installed ServerConn has no connection;
when the dial succeeds it stores the wrapped connection and broadcasts
`ServerConnected` exactly once. -/
theorem initServerTcpConn_dial_outcomes (ctx : ConnContext) (fid : Nat)
    (dial : String → Except GoErr Nat) :
    (∀ e, dial ctx.pipeConnHost = .error e →
      ∃ sc, initServerTcpConn ctx fid dial = ({ ctx with serverConn := some sc }, [], some e) ∧
        sc.conn = none ∧ sc.address = ctx.pipeConnHost ∧ sc.id = fid) ∧
    (∀ hnd, dial ctx.pipeConnHost = .ok hnd →
      ∃ sc, initServerTcpConn ctx fid dial =
          ({ ctx with serverConn := some sc }, [Event.serverConnected], none) ∧
        sc.address = ctx.pipeConnHost ∧ sc.conn = some hnd ∧ sc.id = fid) := by
  constructor
  · intro e he
    refine ⟨⟨fid, ctx.pipeConnHost, none, false, none, none, none, none⟩, ?_, rfl, rfl, rfl⟩
    simp [initServerTcpConn, newServerConn, he]
  · intro hnd hh
    refine ⟨⟨fid, ctx.pipeConnHost, some hnd, false, none, none, none, none⟩, ?_, rfl, rfl, rfl⟩
    simp [initServerTcpConn, newServerConn, hh]

/-- Witness for C5: a failing dial to `"b.example:9000"` returns the error
with no broadcast; a succeeding dial broadcasts `ServerConnected` once. -/
theorem initServerTcpConn_dial_outcomes_witness :
    (initServerTcpConn ctxSample 3 (fun _ => Except.error "unreachable")).2.2 =
      some "unreachable" ∧
    (initServerTcpConn ctxSample 3 (fun _ => Except.error "unreachable")).2.1 = [] ∧
    (initServerTcpConn ctxSample 3 (fun _ => Except.ok 42)).2.1 = [Event.serverConnected] := by
  obtain ⟨sc1, he1, -, -, -⟩ :=
    (initServerTcpConn_dial_outcomes ctxSample 3 (fun _ => Except.error "unreachable")).1
      "unreachable" rfl
  obtain ⟨sc2, he2, -, -, -⟩ :=
    (initServerTcpConn_dial_outcomes ctxSample 3 (fun _ => Except.ok 42)).2 42 rfl
  rw [he1, he2]
  exact ⟨rfl, rfl, rfl⟩

/-- C6: `initHttpServerConn` is a no-op whenever a ServerConn already exists
or the client speaks TLS; otherwise it installs exactly one fresh ServerConn
carrying the plain dispatch client; in particular a second call never changes
the context again. -/
theorem initHttpServerConn_idempotent (ctx : ConnContext) (f1 f2 : Nat) :
    (ctx.serverConn.isSome = true → initHttpServerConn ctx f1 = ctx) ∧
    (ctx.clientConn.tls = true → initHttpServerConn ctx f1 = ctx) ∧
    (ctx.serverConn = none → ctx.clientConn.tls = false →
      (initHttpServerConn ctx f1).serverConn =
        some ({ newServerConn f1 with client := some plainDispatchClient }) ∧
      (initHttpServerConn ctx f1).clientConn = ctx.clientConn) ∧
    initHttpServerConn (initHttpServerConn ctx f1) f2 = initHttpServerConn ctx f1 := by
  obtain ⟨⟨cid, ctls⟩, sconn, host, ins⟩ := ctx
  cases sconn <;> cases ctls <;> simp [initHttpServerConn]

/-- Witness for C6 at a concrete plain-HTTP context: the first call installs
the ServerConn, the second call is a no-op. -/
theorem initHttpServerConn_idempotent_witness :
    (initHttpServerConn ctxSample 3).serverConn =
      some ({ newServerConn 3 with client := some plainDispatchClient }) ∧
    initHttpServerConn (initHttpServerConn ctxSample 3) 4 = initHttpServerConn ctxSample 3 := by
  have h := initHttpServerConn_idempotent ctxSample 3 4
  exact ⟨(h.2.2.1 rfl rfl).1, h.2.2.2⟩

/-- C7: the TLS-state accessor performs no handshake (its trace is always
empty), returns nothing while the rendezvous signal is unfired (the caller
stays blocked), returns exactly the cached snapshot once it is fired — and
after any run of `getCertificate`, success or failure, it is unblocked and
returns that run's cached snapshot, the same value on every further call. -/
theorem tlsState_blocks_until_fired_then_cached :
    (∀ c : ServerConn, (ServerConn.TlsState c).2 = [] ∧
      (c.tlsHandshakedFired = false → (ServerConn.TlsState c).1 = none) ∧
      (c.tlsHandshakedFired = true → (ServerConn.TlsState c).1 = some c.tlsState)) ∧
    (∀ (ins : Bool) (sc : ServerConn) (hello : ClientHelloInfo)
        (hs : TlsConfig → Except GoErr TlsHandshakeOk)
        (ca : String → Except GoErr Certificate),
      (ServerConn.TlsState (getCertificate ins sc hello hs ca).1).1 =
        some (getCertificate ins sc hello hs ca).1.tlsState) := by
  constructor
  · intro c
    refine ⟨rfl, ?_, ?_⟩ <;> intro hc <;> simp [ServerConn.TlsState, hc]
  · intro ins sc hello hs ca
    cases hh : hs (buildUpstreamTlsConfig ins hello) <;>
      simp [getCertificate, ServerConn.TlsState, hh]

/-- Witness for C7: the accessor blocks on a fresh ServerConn and yields the
cached (absent) snapshot once the signal is fired. -/
theorem tlsState_blocks_until_fired_then_cached_witness :
    (ServerConn.TlsState scSample).1 = none ∧
    (ServerConn.TlsState { scSample with tlsHandshakedFired := true }).1 = some none := by
  have h := tlsState_blocks_until_fired_then_cached
  exact ⟨(h.1 scSample).2.1 rfl, (h.1 { scSample with tlsHandshakedFired := true }).2.2 rfl⟩

/-- C8: the `closed` idempotency flag is a plain boolean with no mutex, so
the check `if c.closed` and the update `c.closed = true` of two concurrent
`Close` calls can interleave: under the schedule check₁, check₂, body₁, body₂
both callers pass the check and each performs the real underlying close and
the addon notification — two of each, violating the claimed at-most-once
guarantee — whereas the fully serialized schedule keeps it at one. -/
theorem close_flag_race_double_close :
    (raceRun [false, true, false, true]).realCloses = 2 ∧
    (raceRun [false, true, false, true]).notifies = 2 ∧
    (raceRun [false, false, true, true]).realCloses = 1 ∧
    (raceRun [false, false, true, true]).notifies = 1 := by
  decide

/-- Sample TLS context that has no ServerConn installed. -/
def ctxTlsNoServer : ConnContext :=
  { clientConn := { id := 2, tls := true }
    serverConn := none
    pipeConnHost := ""
    sslInsecure := false }

/-- C9: `initHttpsServerConn` is a guaranteed no-op only when the client is
not speaking TLS; with the tls flag set it dereferences the context's
ServerConn unconditionally, so it faults when that field is nil and installs
the TLS dispatch client on the existing ServerConn otherwise. -/
theorem initHttpsServerConn_requires_serverConn (ctx : ConnContext) :
    (ctx.clientConn.tls = false → initHttpsServerConn ctx = some ctx) ∧
    (ctx.clientConn.tls = true → ctx.serverConn = none → initHttpsServerConn ctx = none) ∧
    (∀ sc, ctx.clientConn.tls = true → ctx.serverConn = some sc →
      initHttpsServerConn ctx =
        some { ctx with serverConn := some ({ sc with client := some tlsDispatchClient }) }) := by
  refine ⟨?_, ?_, ?_⟩
  · intro ht; simp [initHttpsServerConn, ht]
  · intro ht hs; simp [initHttpsServerConn, ht, hs]
  · intro sc ht hs; simp [initHttpsServerConn, ht, hs]

/-- Witness for C9: with tls set and no ServerConn the call faults; with tls
unset it is the identity. -/
theorem initHttpsServerConn_requires_serverConn_witness :
    initHttpsServerConn ctxTlsNoServer = none ∧
    initHttpsServerConn ctxSample = some ctxSample := by
  have h1 := (initHttpsServerConn_requires_serverConn ctxTlsNoServer).2.1 rfl rfl
  have h2 := (initHttpsServerConn_requires_serverConn ctxSample).1 rfl
  exact ⟨h1, h2⟩
